import Mathlib

/-!
Verification of the ndvi-alert-bot monitoring core against its
natural-language specification.

The repository is a collection of small Python monitoring scripts sharing
one core: a per-zone history store (a CSV file), an anomaly / z-score
computation, a per-zone alert gate with a 7-day suppression window, and a
weighted aggregate score.  This file gives a shallow embedding of that
core and proves or refutes the specification's claims about it.

Modelling conventions, used throughout:
* Calendar dates are integers (day numbers).  In `src/utils.py` the code
  computes `(datetime.today() - last_date).days` where `last_date` is a
  parsed midnight; for any time of day this equals the difference of the
  two calendar day numbers, so the integer model is exact.
* Python floats are idealised as rationals (`ℚ`).  Python's
  `statistics.mean` / `statistics.stdev` compute via exact fractions
  internally, so this is faithful up to the final float conversion.
* `round(x, n)` (Python round-half-to-even) is `pyRound2` / `pyRound3`.
* A raised Python exception is an `Option`/`Except` failure value.
* External effects (HTTP calls, the process clock, `np.random`,
  `hash(...)` which is salted per process) enter as explicit parameters.
* Log lines and exact message text are not modelled; Telegram messages
  are modelled as structured constructors carrying the decision fields.
-/

/- ### Data model and operations of `src/utils.py` -/

/-- One row of the history CSV `ndvi_history.csv`, with the columns
written by `append_ndvi_record` in `src/utils.py`:
`date, zone, ndvi, anomaly, zscore`.  The date is a day number. -/
structure HistoryRecord where
  date : ℤ
  zone : String
  ndvi : ℚ
  anomaly : ℚ
  zscore : ℚ
deriving DecidableEq

/-- `load_ndvi_history` from `src/utils.py` (lines 9-23): read the CSV
and keep the rows whose `zone` column equals `zone_name`, in file
(= insertion) order.  The whole CSV file is the `store` argument. -/
def load_ndvi_history (store : List HistoryRecord) (zone_name : String) :
    List HistoryRecord :=
  store.filter (fun row => row.zone = zone_name)

/-- `append_ndvi_record` from `src/utils.py` (lines 39-52): open the CSV
in append mode and unconditionally write one more row.  There is no
duplicate check of any kind in the source. -/
def append_ndvi_record (store : List HistoryRecord) (date : ℤ)
    (zone : String) (ndvi anomaly zscore : ℚ) : List HistoryRecord :=
  store ++ [{ date := date, zone := zone, ndvi := ndvi,
              anomaly := anomaly, zscore := zscore }]

/-- Round-half-to-even to an integer, the rounding mode of Python's
built-in `round`. -/
def roundHalfEven (q : ℚ) : ℤ :=
  let n := ⌊q⌋
  let f := q - (n : ℚ)
  if f < 1/2 then n
  else if 1/2 < f then n + 1
  else if n % 2 = 0 then n else n + 1

/-- Python `round(x, 2)`. -/
def pyRound2 (q : ℚ) : ℚ := (roundHalfEven (100 * q) : ℚ) / 100

/-- Python `round(x, 3)`. -/
def pyRound3 (q : ℚ) : ℚ := (roundHalfEven (1000 * q) : ℚ) / 1000

/-- `statistics.mean` on a list of rationals. -/
def listMean (xs : List ℚ) : ℚ := xs.sum / (xs.length : ℚ)

/-- The sample variance used by `statistics.stdev` (denominator `n - 1`);
`statistics.stdev values` is the square root of `sampleVar values`. -/
def sampleVar (xs : List ℚ) : ℚ :=
  ((xs.map (fun x => (x - listMean xs) ^ 2)).sum) / ((xs.length : ℚ) - 1)

/-- `compute_anomaly` from `src/utils.py` (lines 26-36).

The source computes `std = statistics.stdev(values)`, a square root that
has no exact rational value, so the square-root function is taken as an
explicit parameter `sqrt`; theorems assume only that it vanishes exactly
on zero (true of the float square root on the nonnegative inputs
`statistics.stdev` produces).  The source's `std == 0` test is
`sqrt (sampleVar values) = 0` here.

`anomaly = ((current_ndvi - avg) / avg) * 100` raises
`ZeroDivisionError` when `avg == 0`; that exception is the `none`
result (it aborts the call before the z-score line runs). -/
def compute_anomaly (sqrt : ℚ → ℚ) (history : List HistoryRecord)
    (current_ndvi : ℚ) : Option (ℚ × ℚ) :=
  if history.length < 5 then some (0, 0)
  else
    let values := history.map (fun entry => entry.ndvi)
    let avg := listMean values
    let std := sqrt (sampleVar values)
    if std = 0 then some (0, 0)
    else if avg = 0 then none
    else some (pyRound2 ((current_ndvi - avg) / avg * 100),
               pyRound2 ((current_ndvi - avg) / std))

/-- `should_trigger_alert` from `src/utils.py` (lines 55-62): reload the
zone's history from the CSV, return `False` on an empty history, and
otherwise gate on the thresholds and on
`(datetime.today() - last_entry_date).days >= 7`, where `last_entry` is
the zone's last CSV row — whatever that row was appended for. -/
def should_trigger_alert (store : List HistoryRecord) (zone_name : String)
    (anomaly zscore : ℚ) (today : ℤ) (threshold_pct threshold_z : ℚ) :
    Bool :=
  let history := load_ndvi_history store zone_name
  match history.getLast? with
  | none => false
  | some last_entry =>
      decide (anomaly ≤ threshold_pct ∧ zscore ≤ threshold_z ∧
              7 ≤ today - last_entry.date)

/-- A square-root stand-in for witnesses: it vanishes exactly on zero,
the only property of the float square root the theorems use. -/
def unitSqrt (v : ℚ) : ℚ := if v = 0 then 0 else 1

/- ### The `src/main.py` orchestrator (per-county loop and stress index) -/

/-- A county from the `COUNTIES` registry of `src/main.py`: only the
identity and the weight matter to the aggregation logic (state, bbox and
baselines stay inside the abstracted per-county processing). -/
structure County where
  name : String
  weight : ℚ
deriving DecidableEq

/-- The weight normalisation performed at module load in `src/main.py`
(lines 86-89): every weight is divided by the total, so the configured
weights of *all* counties — available this pass or not — sum to 1
afterwards. -/
def normalize_weights (cs : List County) : List County :=
  cs.map (fun c => { c with weight := c.weight / (cs.map County.weight).sum })

/-- The per-county `try/except` loop of `main` in `src/main.py`
(lines 292-297): `process_county` — abstracted as the oracle `f`, since
its network and chart internals are out of scope — either returns the
county's z-score or raises; a raise is logged and the county simply
contributes no entry to `results`. -/
def runCounties (f : County → Except String ℚ) (cs : List County) :
    List (County × ℚ) :=
  cs.filterMap (fun c => (f c).toOption.map (fun z => (c, z)))

/-- The Corn-Belt Stress Index of `src/main.py` (line 300):
`sum(r['weight'] * r['z'] for r in results)` — a plain weighted sum over
the counties that succeeded, with no division. -/
def stress_index (results : List (County × ℚ)) : ℚ :=
  (results.map (fun r => r.1.weight * r.2)).sum

/-- Modelled from the spec (§4.4): the aggregate formula the claim
asserts, `Σ(z_score_i × weight_i) / Σ(weight_i)` over the zones that
produced a valid reading, stated over (weight, optional z-score) pairs.
Kept separate from `stress_index`, which is the source's computation,
so the two can be compared. -/
def specAggregateScore (zones : List (ℚ × Option ℚ)) : ℚ :=
  let valid := zones.filterMap (fun p => p.2.map (fun z => (p.1, z)))
  ((valid.map (fun p => p.1 * p.2)).sum) / ((valid.map (fun p => p.1)).sum)

/-- `main` from `src/main.py` (lines 288-310) after the per-county loop:
the stress index is computed from the successful counties, then
`send_telegram(msg)` runs with *no* surrounding `try` — if that post
raises (`requests` network errors propagate), `main` itself raises.  The
final notification is the `notify` argument. -/
def mainPass (f : County → Except String ℚ) (notify : Except String Unit)
    (cs : List County) : Except String (List (County × ℚ) × ℚ) :=
  let results := runCounties f cs
  let s := stress_index results
  match notify with
  | Except.error e => Except.error e
  | Except.ok _ => Except.ok (results, s)

/-- A concrete per-county oracle for witnesses and counterexamples:
county `A` yields z-score `-2`, every other county's reading is
unavailable. -/
def availOnlyA : County → Except String ℚ :=
  fun c => if c.name = "A" then Except.ok (-2) else Except.error "unavailable"

/- ### `src/maize_monitor/main.py` (`check_ndvi_drop` pass) -/

/-- An entry of the `counties` registry of `src/maize_monitor/main.py`
(lines 75-96). -/
structure MaizeCounty where
  name : String
  lat : ℚ
  lon : ℚ
  weight : ℚ
deriving DecidableEq

/-- The producer tier attached to every county at module load
(lines 97-99 of `src/maize_monitor/main.py`). -/
def tierOf (w : ℚ) : String :=
  if 5/100 ≤ w then "🟢 Gros producteur"
  else if 35/1000 ≤ w then "🟡 Producteur moyen"
  else "🔴 Petit producteur"

/-- The 20-county registry of `src/maize_monitor/main.py`. -/
def maize_counties : List MaizeCounty :=
  [{ name := "McLean, IL",     lat := 4048/100, lon := -(8899/100), weight := 62/1000 },
   { name := "Iroquois, IL",   lat := 4074/100, lon := -(8783/100), weight := 51/1000 },
   { name := "Livingston, IL", lat := 4089/100, lon := -(8863/100), weight := 50/1000 },
   { name := "Champaign, IL",  lat := 4013/100, lon := -(8820/100), weight := 49/1000 },
   { name := "Story, IA",      lat := 4204/100, lon := -(9346/100), weight := 45/1000 },
   { name := "Woodbury, IA",   lat := 4238/100, lon := -(9605/100), weight := 44/1000 },
   { name := "Lancaster, NE",  lat := 4078/100, lon := -(9669/100), weight := 42/1000 },
   { name := "Polk, IA",       lat := 4160/100, lon := -(9361/100), weight := 41/1000 },
   { name := "Marshall, IA",   lat := 4203/100, lon := -(9291/100), weight := 40/1000 },
   { name := "Boone, NE",      lat := 4170/100, lon := -(9800/100), weight := 38/1000 },
   { name := "Ford, IL",       lat := 4057/100, lon := -(8823/100), weight := 37/1000 },
   { name := "DeKalb, IL",     lat := 4189/100, lon := -(8876/100), weight := 36/1000 },
   { name := "Adams, IL",      lat := 3999/100, lon := -(9119/100), weight := 35/1000 },
   { name := "Hancock, IL",    lat := 4040/100, lon := -(9116/100), weight := 34/1000 },
   { name := "Plymouth, IA",   lat := 4274/100, lon := -(9622/100), weight := 33/1000 },
   { name := "Cass, NE",       lat := 4091/100, lon := -(9615/100), weight := 32/1000 },
   { name := "Otoe, NE",       lat := 4068/100, lon := -(9613/100), weight := 31/1000 },
   { name := "Washington, IA", lat := 4134/100, lon := -(9169/100), weight := 30/1000 },
   { name := "Tama, IA",       lat := 4208/100, lon := -(9258/100), weight := 29/1000 },
   { name := "Benton, IA",     lat := 4211/100, lon := -(9186/100), weight := 28/1000 }]

/-- `determine_stage` from `src/maize_monitor/main.py` (lines 144-148):
phenological stage and NDVI threshold from the day of year. -/
def determine_stage (doy : ℕ) : String × ℚ :=
  if doy < 130 then ("emergence", 3/10)
  else if doy < 160 then ("V8-V12", 55/100)
  else ("pre-silking", 7/10)

/-- `int(np.clip(100 * (1 + zscore) / 2, 0, 100))` from line 182:
clip to [0, 100], then truncate (the clipped value is nonnegative, so
truncation is the floor). -/
def pctOf (zscore : ℚ) : ℤ :=
  ⌊min (max (100 * (1 + zscore) / 2) 0) 100⌋

/-- One row of `ndvi_history.csv` as written by `write_to_csv`
(lines 124-131), with columns
Date, Comté, NDVI, Δ7j, Z-score, Percentile, Stade, Seuil, Producteur. -/
structure MaizeRow where
  date : ℤ
  comte : String
  ndvi : ℚ
  delta7 : ℚ
  zscore : ℚ
  percentile : ℤ
  stade : String
  seuil : ℚ
  producteur : String
deriving DecidableEq

/-- A Telegram message sent during one maize pass, abstracted to its
decision fields (the French text formatting is out of scope). -/
inductive MaizeMsg where
  | alert (county : String) (fake : Bool)
  | summary (index : ℚ) (opportunity : Bool)
  | reportImage
deriving DecidableEq

/-- The externally visible effects of one `check_ndvi_drop` run: the
history CSV contents, the Telegram messages sent, the number of Google
Sheets posts, the number of index fetches (`get_ndvi` calls) and the
number of report images rendered. -/
structure MaizeState where
  csv : List MaizeRow
  telegrams : List MaizeMsg
  sheets : ℕ
  fetches : ℕ
  reports : ℕ
deriving DecidableEq

/-- The loop-carried values of `check_ndvi_drop`: effects so far,
`stress`, `total_w`, `signals` and `report_data`. -/
structure MaizeAcc where
  st : MaizeState
  stress : ℚ
  total_w : ℚ
  signals : List ℚ
  report_data : List (String × ℚ × ℚ)

/-- One iteration of the county loop of `check_ndvi_drop`
(lines 177-215 of `src/maize_monitor/main.py`).  `ndviNow` and
`ndviPrev` are the index-provider results for today and a week ago
(`get_ndvi` there is total: it returns a simulated value). -/
def processCounty (doy : ℕ) (today : ℤ) (force_alert : Bool)
    (ndviNow ndviPrev : MaizeCounty → ℚ) (acc : MaizeAcc)
    (c : MaizeCounty) : MaizeAcc :=
  let ndvi_now := ndviNow c
  let ndvi_prev := ndviPrev c
  let delta := ndvi_now - ndvi_prev
  let zscore := (ndvi_now - 6/10) / (15/100)
  let pct := pctOf zscore
  let stage := (determine_stage doy).1
  let thr := (determine_stage doy).2
  let stress := acc.stress + zscore * c.weight
  let total_w := acc.total_w + c.weight
  let alert := (decide (ndvi_now < thr) &&
                 (decide (zscore ≤ -(3/2)) || decide (delta < -(1/10)))) ||
               force_alert
  let st0 := { acc.st with fetches := acc.st.fetches + 2 }
  let st1 := if alert then
               { st0 with telegrams :=
                   st0.telegrams ++ [MaizeMsg.alert c.name force_alert] }
             else st0
  let signals := if alert then acc.signals ++ [zscore] else acc.signals
  let row : MaizeRow :=
    { date := today, comte := c.name, ndvi := ndvi_now,
      delta7 := pyRound2 delta, zscore := pyRound2 zscore,
      percentile := pct, stade := stage, seuil := thr,
      producteur := tierOf c.weight }
  let st2 := { st1 with csv := st1.csv ++ [row], sheets := st1.sheets + 1 }
  { st := st2, stress := stress, total_w := total_w, signals := signals,
    report_data := acc.report_data ++ [(c.name, ndvi_now, thr)] }

/-- `check_ndvi_drop` from `src/maize_monitor/main.py` (lines 164-224).
`doy` is the current UTC day of year and `today` the current day number
(the ambient clock, passed in explicitly); `token` is the
`get_access_token()` outcome, whose exception propagates.  If the day of
year is outside the growing window the function logs and returns at once
with no other effect; otherwise it runs the county loop, sends the
stress-index summary (with the opportunity line when at least five
signals fired and the index is below −0.5) and sends the visual
report. -/
def check_ndvi_drop (doy : ℕ) (today : ℤ) (force_alert : Bool)
    (token : Except String Unit) (ndviNow ndviPrev : MaizeCounty → ℚ)
    (counties : List MaizeCounty) (st : MaizeState) :
    Except String MaizeState :=
  if doy < 120 ∨ 260 < doy then Except.ok st
  else
    match token with
    | Except.error e => Except.error e
    | Except.ok _ =>
        let acc := counties.foldl
          (processCounty doy today force_alert ndviNow ndviPrev)
          { st := st, stress := 0, total_w := 0, signals := [],
            report_data := [] }
        let index := if acc.total_w ≠ 0 then acc.stress / acc.total_w else 0
        let opportunity := decide (5 ≤ acc.signals.length ∧ index < -(1/2))
        let st1 := { acc.st with telegrams :=
            acc.st.telegrams ++ [MaizeMsg.summary index opportunity] }
        let st2 := { st1 with
            reports := st1.reports + 1,
            telegrams := st1.telegrams ++ [MaizeMsg.reportImage] }
        Except.ok st2

/- ### `get_ndvi` from `src/utils.py` (the Index Provider) -/

/-- `get_ndvi` from `src/utils.py` (lines 77-173).  `auth_ok` is the
outcome of the OAuth2 token request (HTTP 200 or not), `api_ok` the
outcome of the Process API request, and `h` the value of Python's
process-salted `hash(zone["name"] + date_str)`.  On authentication
failure or API error the function returns `None`; on API success it
*discards the response* and returns the simulated value
`round(0.6 + 0.05 * (hash(...) % 10) / 10, 3)` (the source comment says
"Pour l'instant, retourne une valeur simulée"). -/
def get_ndvi (auth_ok api_ok : Bool) (h : ℤ) : Option ℚ :=
  if auth_ok = false then none
  else if api_ok = true then
    some (pyRound3 (6/10 + 5/100 * (((h % 10 : ℤ) : ℚ)) / 10))
  else none

/- ### Helper lemmas -/

theorem except_toOption_ok {ε α : Type} (a : α) :
    (Except.ok a : Except ε α).toOption = some a := rfl

theorem except_toOption_error {ε α : Type} (e : ε) :
    (Except.error e : Except ε α).toOption = none := rfl

theorem unitSqrt_spec : ∀ v : ℚ, 0 ≤ v → (unitSqrt v = 0 ↔ v = 0) := by
  intro v _
  by_cases h : v = 0 <;> simp [unitSqrt, h]

theorem sampleVar_nonneg (xs : List ℚ) (h : 2 ≤ xs.length) :
    0 ≤ sampleVar xs := by
  unfold sampleVar
  apply div_nonneg
  · apply List.sum_nonneg
    intro x hx
    obtain ⟨y, _, rfl⟩ := List.mem_map.mp hx
    positivity
  · have : (2 : ℚ) ≤ (xs.length : ℚ) := by exact_mod_cast h
    linarith

theorem roundHalfEven_intCast (n : ℤ) : roundHalfEven (n : ℚ) = n := by
  unfold roundHalfEven
  rw [Int.floor_intCast]
  norm_num

/- ### Claims -/

/-- C5: for every history with fewer than `MIN_SAMPLES = 5` entries and
every current value, `compute_anomaly` returns the neutral pair `(0, 0)`
and does not fail: the cold-start guard `if len(history) < 5` is the
first statement of the function. -/
theorem compute_anomaly_cold_start (sqrt : ℚ → ℚ)
    (history : List HistoryRecord) (current : ℚ)
    (h : history.length < 5) :
    compute_anomaly sqrt history current = some (0, 0) := by
  unfold compute_anomaly
  simp [h]

theorem compute_anomaly_cold_start_witness :
    ([({ date := 1, zone := "A", ndvi := 13/20, anomaly := 0, zscore := 0 } : HistoryRecord),
      { date := 2, zone := "A", ndvi := 16/25, anomaly := 0, zscore := 0 },
      { date := 3, zone := "A", ndvi := 33/50, anomaly := 0, zscore := 0 }].length < 5) ∧
    compute_anomaly unitSqrt
      [{ date := 1, zone := "A", ndvi := 13/20, anomaly := 0, zscore := 0 },
       { date := 2, zone := "A", ndvi := 16/25, anomaly := 0, zscore := 0 },
       { date := 3, zone := "A", ndvi := 33/50, anomaly := 0, zscore := 0 }] (3/10) = some (0, 0) :=
  ⟨by decide,
   compute_anomaly_cold_start unitSqrt
     [{ date := 1, zone := "A", ndvi := 13/20, anomaly := 0, zscore := 0 },
      { date := 2, zone := "A", ndvi := 16/25, anomaly := 0, zscore := 0 },
      { date := 3, zone := "A", ndvi := 33/50, anomaly := 0, zscore := 0 }] (3/10) (by decide)⟩

/-- C6: for every history with at least 5 entries whose NDVI values have
zero sample variance, `compute_anomaly` returns `(0, 0)`: the
`std == 0` guard fires (the square root of the zero variance is zero)
before either division is reached. -/
theorem compute_anomaly_zero_variance (sqrt : ℚ → ℚ)
    (hsqrt : ∀ v : ℚ, 0 ≤ v → (sqrt v = 0 ↔ v = 0))
    (history : List HistoryRecord) (current : ℚ)
    (hlen : 5 ≤ history.length)
    (hvar : sampleVar (history.map (fun entry => entry.ndvi)) = 0) :
    compute_anomaly sqrt history current = some (0, 0) := by
  unfold compute_anomaly
  have hnot : ¬ history.length < 5 := by omega
  have hstd : sqrt (sampleVar (history.map (fun entry => entry.ndvi))) = 0 := by
    rw [hvar]
    exact (hsqrt 0 le_rfl).mpr rfl
  simp [hnot, hstd]

theorem compute_anomaly_zero_variance_witness :
    (5 ≤ ([({ date := 1, zone := "A", ndvi := 13/20, anomaly := 0, zscore := 0 } : HistoryRecord),
           { date := 2, zone := "A", ndvi := 13/20, anomaly := 0, zscore := 0 },
           { date := 3, zone := "A", ndvi := 13/20, anomaly := 0, zscore := 0 },
           { date := 4, zone := "A", ndvi := 13/20, anomaly := 0, zscore := 0 },
           { date := 5, zone := "A", ndvi := 13/20, anomaly := 0, zscore := 0 }].length)) ∧
    compute_anomaly unitSqrt
      [{ date := 1, zone := "A", ndvi := 13/20, anomaly := 0, zscore := 0 },
       { date := 2, zone := "A", ndvi := 13/20, anomaly := 0, zscore := 0 },
       { date := 3, zone := "A", ndvi := 13/20, anomaly := 0, zscore := 0 },
       { date := 4, zone := "A", ndvi := 13/20, anomaly := 0, zscore := 0 },
       { date := 5, zone := "A", ndvi := 13/20, anomaly := 0, zscore := 0 }] (3/10) = some (0, 0) :=
  ⟨by decide,
   compute_anomaly_zero_variance unitSqrt unitSqrt_spec
     [{ date := 1, zone := "A", ndvi := 13/20, anomaly := 0, zscore := 0 },
      { date := 2, zone := "A", ndvi := 13/20, anomaly := 0, zscore := 0 },
      { date := 3, zone := "A", ndvi := 13/20, anomaly := 0, zscore := 0 },
      { date := 4, zone := "A", ndvi := 13/20, anomaly := 0, zscore := 0 },
      { date := 5, zone := "A", ndvi := 13/20, anomaly := 0, zscore := 0 }] (3/10)
     (by decide) (by norm_num [sampleVar, listMean])⟩

/-- C4 counterexample: the claim quantifies over *every* history, but a
history of five NDVI readings all equal to `0` has historical mean zero
and `compute_anomaly` silently returns `(0, 0)` for it instead of
failing: the `std == 0` guard runs before the division by the mean, and
an all-zero history has zero standard deviation.  (`unitSqrt` stands in
for the float square root; any square root with `sqrt 0 = 0` gives the
same run, as the third conjunct records.) -/
theorem compute_anomaly_zero_history_silent :
    listMean (List.map (fun entry => entry.ndvi)
      [({ date := 1, zone := "A", ndvi := 0, anomaly := 0, zscore := 0 } : HistoryRecord),
       { date := 2, zone := "A", ndvi := 0, anomaly := 0, zscore := 0 },
       { date := 3, zone := "A", ndvi := 0, anomaly := 0, zscore := 0 },
       { date := 4, zone := "A", ndvi := 0, anomaly := 0, zscore := 0 },
       { date := 5, zone := "A", ndvi := 0, anomaly := 0, zscore := 0 }]) = 0 ∧
    compute_anomaly unitSqrt
      [{ date := 1, zone := "A", ndvi := 0, anomaly := 0, zscore := 0 },
       { date := 2, zone := "A", ndvi := 0, anomaly := 0, zscore := 0 },
       { date := 3, zone := "A", ndvi := 0, anomaly := 0, zscore := 0 },
       { date := 4, zone := "A", ndvi := 0, anomaly := 0, zscore := 0 },
       { date := 5, zone := "A", ndvi := 0, anomaly := 0, zscore := 0 }] (3/10) = some (0, 0) ∧
    unitSqrt 0 = 0 := by
  refine ⟨by norm_num [listMean], ?_, by norm_num [unitSqrt]⟩
  norm_num [compute_anomaly, sampleVar, listMean, unitSqrt]

/-- C4 amended: for every history with at least `MIN_SAMPLES = 5`
entries and *nonzero* sample variance (so the `std == 0` guard does not
fire first), a historical mean of zero makes `compute_anomaly` fail
explicitly — the line `((current_ndvi - avg) / avg) * 100` raises
`ZeroDivisionError` — rather than silently return `0`.  (The exception
also aborts the call before the z-score line, so no z-score is produced
on this path either.) -/
theorem compute_anomaly_mean_zero_fails (sqrt : ℚ → ℚ)
    (hsqrt : ∀ v : ℚ, 0 ≤ v → (sqrt v = 0 ↔ v = 0))
    (history : List HistoryRecord) (current : ℚ)
    (hlen : 5 ≤ history.length)
    (hvar : sampleVar (history.map (fun entry => entry.ndvi)) ≠ 0)
    (hmean : listMean (history.map (fun entry => entry.ndvi)) = 0) :
    compute_anomaly sqrt history current = none := by
  unfold compute_anomaly
  have hnot : ¬ history.length < 5 := by omega
  have h2 : 2 ≤ (history.map (fun entry => entry.ndvi)).length := by
    simpa using by omega
  have hstd : sqrt (sampleVar (history.map (fun entry => entry.ndvi))) ≠ 0 := by
    intro h0
    exact hvar ((hsqrt _ (sampleVar_nonneg _ h2)).mp h0)
  simp [hnot, hstd, hmean]

theorem compute_anomaly_mean_zero_fails_witness :
    (sampleVar (List.map (fun entry => entry.ndvi)
      [({ date := 1, zone := "A", ndvi := -(1/5), anomaly := 0, zscore := 0 } : HistoryRecord),
       { date := 2, zone := "A", ndvi := -(1/10), anomaly := 0, zscore := 0 },
       { date := 3, zone := "A", ndvi := 0, anomaly := 0, zscore := 0 },
       { date := 4, zone := "A", ndvi := 1/10, anomaly := 0, zscore := 0 },
       { date := 5, zone := "A", ndvi := 1/5, anomaly := 0, zscore := 0 }]) ≠ 0) ∧
    compute_anomaly unitSqrt
      [{ date := 1, zone := "A", ndvi := -(1/5), anomaly := 0, zscore := 0 },
       { date := 2, zone := "A", ndvi := -(1/10), anomaly := 0, zscore := 0 },
       { date := 3, zone := "A", ndvi := 0, anomaly := 0, zscore := 0 },
       { date := 4, zone := "A", ndvi := 1/10, anomaly := 0, zscore := 0 },
       { date := 5, zone := "A", ndvi := 1/5, anomaly := 0, zscore := 0 }] (3/10) = none :=
  ⟨by norm_num [sampleVar, listMean],
   compute_anomaly_mean_zero_fails unitSqrt unitSqrt_spec
     [{ date := 1, zone := "A", ndvi := -(1/5), anomaly := 0, zscore := 0 },
      { date := 2, zone := "A", ndvi := -(1/10), anomaly := 0, zscore := 0 },
      { date := 3, zone := "A", ndvi := 0, anomaly := 0, zscore := 0 },
      { date := 4, zone := "A", ndvi := 1/10, anomaly := 0, zscore := 0 },
      { date := 5, zone := "A", ndvi := 1/5, anomaly := 0, zscore := 0 }] (3/10)
     (by decide) (by norm_num [sampleVar, listMean]) (by norm_num [listMean])⟩

/-- C9: for every zone whose loaded history is empty,
`should_trigger_alert` returns `false` regardless of `anomaly` and
`zscore`: the function begins with `if not history: return False`, so no
alert can fire for a zone's first recorded observation. -/
theorem should_trigger_alert_empty_history (store : List HistoryRecord)
    (zone_name : String) (anomaly zscore : ℚ) (today : ℤ)
    (threshold_pct threshold_z : ℚ)
    (h : load_ndvi_history store zone_name = []) :
    should_trigger_alert store zone_name anomaly zscore today
      threshold_pct threshold_z = false := by
  unfold should_trigger_alert
  rw [h]
  rfl

theorem should_trigger_alert_empty_history_witness :
    load_ndvi_history
      [({ date := 1, zone := "B", ndvi := 1/2, anomaly := 0, zscore := 0 } : HistoryRecord)]
      "A" = [] ∧
    should_trigger_alert
      [{ date := 1, zone := "B", ndvi := 1/2, anomaly := 0, zscore := 0 }]
      "A" (-20) (-2) 107 (-15) (-1) = false :=
  ⟨by decide,
   should_trigger_alert_empty_history
     [{ date := 1, zone := "B", ndvi := 1/2, anomaly := 0, zscore := 0 }]
     "A" (-20) (-2) 107 (-15) (-1) (by decide)⟩

/-- C1: `should_trigger_alert` measures its 7-day window from the date
of the zone's *last history record*, not from the date of the last
emitted alert — the source keeps no alert-state at all.  Records are
appended on every run whether or not an alert fired, and `daily_check`
in `src/maize_monitor/config.py` appends today's record *before* calling
`should_trigger_alert`, so at that call the zone's last record is dated
today, `days_since = 0 < 7`, and the function returns `false` no matter
what the anomaly and z-score are (first conjunct: the per-zone alert
path of `daily_check` is unreachable).  The second conjunct is a direct
failing input: zone `A`'s last record is from day 101 (appended by a run
that emitted no alert), today is day 107, the statistical gate is
satisfied (`-20 ≤ -15`, `-2 ≤ -1`) and no alert was emitted for at least
the last 57 days, yet the function returns `false` because
`107 - 101 = 6 < 7`. -/
theorem should_trigger_alert_measures_from_last_record :
    (∀ (store : List HistoryRecord) (zone_name : String)
       (ndvi anomaly zscore anomaly2 zscore2 threshold_pct threshold_z : ℚ)
       (today : ℤ),
       should_trigger_alert
         (append_ndvi_record store today zone_name ndvi anomaly zscore)
         zone_name anomaly2 zscore2 today threshold_pct threshold_z = false) ∧
    should_trigger_alert
      [({ date := 50, zone := "A", ndvi := 13/20, anomaly := 0, zscore := 0 } : HistoryRecord),
       { date := 101, zone := "A", ndvi := 16/25, anomaly := -1, zscore := -(1/2) }]
      "A" (-20) (-2) 107 (-15) (-1) = false := by
  constructor
  · intro store zone_name ndvi anomaly zscore anomaly2 zscore2 tp tz today
    unfold should_trigger_alert load_ndvi_history append_ndvi_record
    rw [List.filter_append]
    simp
  · decide

/-- C2: `append_ndvi_record` enforces no uniqueness on (zone, date).  It
cannot fail (it returns a store, not an error), every append grows the
store by exactly one row (second conjunct), and appending the same
(zone, date) twice leaves *two* records for that pair in the store
(first conjunct), not one — there is no `DuplicateRecordError` anywhere
in the source. -/
theorem append_ndvi_record_allows_duplicates :
    ((append_ndvi_record
        (append_ndvi_record [] 186 "A" (3/5) 0 0) 186 "A" (3/5) 0 0).filter
      (fun row => decide (row.zone = "A" ∧ row.date = 186))).length = 2 ∧
    (∀ (store : List HistoryRecord) (date : ℤ) (zone : String)
       (ndvi anomaly zscore : ℚ),
       (append_ndvi_record store date zone ndvi anomaly zscore).length =
         store.length + 1) := by
  constructor
  · decide
  · intro store date zone ndvi anomaly zscore
    unfold append_ndvi_record
    simp

/-- C3 counterexample: two counties with (already normalised) weights
`6/10` and `4/10`; county `A` has z-score `-2`, county `B` is
unavailable.  `main`'s stress index is `6/10 * (-2) = -6/5`, while the
claimed formula `Σ(z·w)/Σ(w)` over the valid zones gives
`(6/10 * -2) / (6/10) = -2`: the source never divides by the valid
zones' weight total, so the claim's equation fails on this input. -/
theorem stress_index_ne_spec_aggregate :
    stress_index (runCounties availOnlyA
      [{ name := "A", weight := 6/10 }, { name := "B", weight := 4/10 }]) = -(6/5) ∧
    specAggregateScore [(6/10, some (-2)), (4/10, none)] = -2 ∧
    stress_index (runCounties availOnlyA
      [{ name := "A", weight := 6/10 }, { name := "B", weight := 4/10 }]) ≠
      specAggregateScore [(6/10, some (-2)), (4/10, none)] := by
  have hBA : ¬ (("B" : String) = "A") := by decide
  refine ⟨?_, ?_, ?_⟩
  · norm_num [stress_index, runCounties, availOnlyA, List.filterMap_cons,
      except_toOption_ok, except_toOption_error, hBA]
  · norm_num [specAggregateScore, List.filterMap_cons]
  · norm_num [stress_index, runCounties, availOnlyA, specAggregateScore,
      List.filterMap_cons, except_toOption_ok, except_toOption_error, hBA]

/-- C3 amended: the aggregate score of one `main` pass equals the sum
over counties that produced a valid reading of `z_score_i × weight_i`,
with *no* division by those counties' weight total (the configured
weights are normalised over all counties once at load time); counties
whose processing failed contribute nothing, so for every weight vector
the score is unchanged by appending a county whose reading is
unavailable. -/
theorem stress_index_excludes_failed_zones
    (f : County → Except String ℚ) (cs : List County) (c : County)
    (e : String) (hc : f c = Except.error e) :
    stress_index (runCounties f (cs ++ [c])) =
      stress_index (runCounties f cs) ∧
    stress_index (runCounties f cs) =
      (cs.map (fun c2 => match f c2 with
        | Except.ok z => c2.weight * z
        | Except.error _ => 0)).sum := by
  constructor
  · unfold runCounties stress_index
    rw [List.filterMap_append]
    simp [hc, List.filterMap_cons, except_toOption_error]
  · induction cs with
    | nil => rfl
    | cons a l ih =>
        unfold runCounties stress_index at ih ⊢
        cases hfa : f a <;>
          simp [hfa, ih, List.filterMap_cons, except_toOption_ok,
            except_toOption_error]

theorem stress_index_excludes_failed_zones_witness :
    availOnlyA { name := "B", weight := 4/10 } = Except.error "unavailable" ∧
    (stress_index (runCounties availOnlyA
       ([{ name := "A", weight := 6/10 }] ++ [{ name := "B", weight := 4/10 }])) =
       stress_index (runCounties availOnlyA [{ name := "A", weight := 6/10 }]) ∧
     stress_index (runCounties availOnlyA [{ name := "A", weight := 6/10 }]) =
       ([({ name := "A", weight := 6/10 } : County)].map
         (fun c2 => match availOnlyA c2 with
           | Except.ok z => c2.weight * z
           | Except.error _ => 0)).sum) :=
  ⟨rfl,
   stress_index_excludes_failed_zones availOnlyA
     [{ name := "A", weight := 6/10 }] { name := "B", weight := 4/10 }
     "unavailable" rfl⟩

/-- C7 counterexample: a pass in which every county succeeds but the
aggregate-level Telegram notification fails makes `main` raise as a
whole — `send_telegram` on line 305 of `src/main.py` runs outside any
`try`, so the pass *can* fail as a unit, refuting the claim's final
conjunct. -/
theorem mainPass_aggregate_notify_failure :
    mainPass (fun _ => Except.ok 1) (Except.error "telegram down")
      [{ name := "A", weight := 1 }] = Except.error "telegram down" := rfl

/-- C7 amended: per-county failures are contained.  For every oracle
`f`, every county `c` is attempted exactly once, a failing county
contributes nothing and leaves the results of the counties before and
after it untouched (second conjunct), and whenever the aggregate-level
notification succeeds the pass completes and returns the per-county
results together with the aggregate score for every `f`, zone failures
included (first conjunct).  Only a failure of the aggregate notification
after the loop can abort the pass. -/
theorem mainPass_zone_failures_contained
    (f : County → Except String ℚ) (cs1 cs2 : List County) (c : County) :
    mainPass f (Except.ok ()) (cs1 ++ c :: cs2) =
      Except.ok (runCounties f (cs1 ++ c :: cs2),
                 stress_index (runCounties f (cs1 ++ c :: cs2))) ∧
    runCounties f (cs1 ++ c :: cs2) =
      runCounties f cs1 ++
        ((f c).toOption.map (fun z => (c, z))).toList ++
        runCounties f cs2 := by
  constructor
  · rfl
  · unfold runCounties
    rw [List.filterMap_append, List.filterMap_cons]
    cases hfc : f c <;>
      simp [hfc, except_toOption_ok, except_toOption_error]

/-- C10: when the day of year is below 120 or above 260,
`check_ndvi_drop` returns immediately after logging: the history CSV is
unchanged, no Telegram message is sent, no index value (and no access
token) is fetched, no sheet row is posted and no report is rendered —
the state comes back exactly as it went in, for every clock, oracle,
county list and prior state. -/
theorem check_ndvi_drop_off_season (doy : ℕ) (today : ℤ)
    (force_alert : Bool) (token : Except String Unit)
    (ndviNow ndviPrev : MaizeCounty → ℚ) (counties : List MaizeCounty)
    (st : MaizeState) (h : doy < 120 ∨ 260 < doy) :
    check_ndvi_drop doy today force_alert token ndviNow ndviPrev
      counties st = Except.ok st := by
  unfold check_ndvi_drop
  rw [if_pos h]

theorem check_ndvi_drop_off_season_witness :
    ((100 : ℕ) < 120 ∨ 260 < (100 : ℕ)) ∧
    check_ndvi_drop 100 200 false (Except.ok ())
      (fun _ => 13/20) (fun _ => 13/20) maize_counties
      { csv := [], telegrams := [], sheets := 0, fetches := 0, reports := 0 } =
      Except.ok
        { csv := [], telegrams := [], sheets := 0, fetches := 0, reports := 0 } :=
  ⟨Or.inl (by decide),
   check_ndvi_drop_off_season 100 200 false (Except.ok ())
     (fun _ => 13/20) (fun _ => 13/20) maize_counties
     { csv := [], telegrams := [], sheets := 0, fetches := 0, reports := 0 }
     (Or.inl (by decide))⟩

/-- C8: `get_ndvi` in `src/utils.py` does return `None` on
authentication failure (first conjunct) and on API error (second
conjunct), but on API success it returns a *simulated* value — the
satellite response is discarded and the result is
`round(0.6 + 0.05 * (hash(name + date) % 10) / 10, 3)`, a function of a
process-salted string hash alone, always within [0.600, 0.645] whatever
the true reading (third and fourth conjuncts).  The success path thus
fabricates the value, contradicting the claim's "never returns a
fabricated value"; the source's own comments ("Pour l'instant, retourne
une valeur simulée", and in `src/maize_monitor/main.py` a bare
`np.random.uniform(0.2, 0.85)` under "TODO: remplacer par vraie
requête") mark this as placeholder behaviour. -/
theorem get_ndvi_simulated_value :
    (∀ h : ℤ, get_ndvi false true h = none) ∧
    (∀ h : ℤ, get_ndvi true false h = none) ∧
    get_ndvi true true 3 = some (123/200) ∧
    (∀ h : ℤ, ∃ v : ℚ, get_ndvi true true h = some v ∧
      3/5 ≤ v ∧ v ≤ 129/200) := by
  refine ⟨fun h => rfl, fun h => rfl, ?_, ?_⟩
  · have h3 : ((3 : ℤ) % 10) = 3 := by decide
    unfold get_ndvi
    rw [h3]
    have hx : (1000 : ℚ) * (6/10 + 5/100 * ((3 : ℤ) : ℚ) / 10) =
        ((615 : ℤ) : ℚ) := by push_cast; ring
    simp only [pyRound3]
    rw [hx, roundHalfEven_intCast]
    norm_num
  · intro h
    have hk0 : 0 ≤ h % 10 := Int.emod_nonneg h (by norm_num)
    have hk9 : h % 10 < 10 := Int.emod_lt_of_pos h (by norm_num)
    refine ⟨pyRound3 (6/10 + 5/100 * (((h % 10 : ℤ) : ℚ)) / 10), rfl, ?_, ?_⟩
    all_goals
      have hx : (1000 : ℚ) * (6/10 + 5/100 * (((h % 10 : ℤ)) : ℚ) / 10) =
          ((600 + 5 * (h % 10) : ℤ) : ℚ) := by push_cast; ring
      have hlo : (600 : ℚ) ≤ ((600 + 5 * (h % 10) : ℤ) : ℚ) := by
        exact_mod_cast (by omega : (600 : ℤ) ≤ 600 + 5 * (h % 10))
      have hhi : ((600 + 5 * (h % 10) : ℤ) : ℚ) ≤ 645 := by
        exact_mod_cast (by omega : (600 + 5 * (h % 10) : ℤ) ≤ 645)
      simp only [pyRound3]
      rw [hx, roundHalfEven_intCast]
      linarith
